import Mathlib

/-!
Verification of the tBNB faucet MCP server
(src/python/faucet-mcp/mcp_server/main.py).

The server is embedded shallowly.  External collaborators (the verification
authority, the chain RPC endpoint, the uuid generator) are modelled by an
`Env` record that fixes, for one inbound request, the answers the outside
world would give to each call the server can make.  Every server function is
translated as a pure function of that environment, and additionally returns a
trace recording which outbound calls it performed, so that claims about
absence of side effects are statable.
-/

namespace FaucetMcp

/-- A Python exception, classified the way the gateway's handlers classify it:
`except ValueError` catches `valueError`, `except Exception` catches the rest
as well.  Transport/HTTP failures raised by the httpx client are `httpError`. -/
inductive PyExc where
  | valueError (msg : String)
  | runtimeError (msg : String)
  | httpError (msg : String)
deriving DecidableEq, Repr

/-- Python `str(exc)`: the message carried by the exception. -/
def PyExc.str : PyExc → String
  | .valueError m => m
  | .runtimeError m => m
  | .httpError m => m

/-- The JSON body returned by the verification authority, as the orchestrator
reads it: `verification.get("verified")`, `verification.get("reason", ...)`,
`verification.get("github_user_id")`. -/
structure Verification where
  verified : Bool
  reason : Option String
  github_user_id : Option Int
deriving DecidableEq, Repr

/-- Responses of the external world to the calls the server can make while
handling one request: the verification POST, the record-payout POST, the
address checksum, the wei conversion of the configured amount, the chain
reads, the broadcast, the receipt poll, and the freshly drawn uuids. -/
structure Env where
  /-- Outcome of `verify_wallet`: the decoded JSON verdict, or the exception
  raised by the httpx call, `raise_for_status`, or `resp.json()`. -/
  verifyResult : Except PyExc Verification
  /-- Whether the record-payout POST (including its `raise_for_status`)
  succeeds. -/
  recordPayoutOk : Bool
  /-- Whether `Web3.to_checksum_address` accepts the requested wallet. -/
  validAddress : Bool
  /-- The checksummed address it returns when it accepts. -/
  checksumAddress : String
  /-- Message of the ValueError it raises when it rejects. -/
  checksumErrMsg : String
  /-- `w3.to_wei(DEFAULT_PAYOUT_AMOUNT, "ether")`: the configured payout
  amount in base units. -/
  valueWei : Int
  /-- `w3.eth.get_transaction_count(treasury_account.address)`. -/
  nonce : Nat
  /-- `w3.eth.gas_price`. -/
  gasPrice : Nat
  /-- The configured `PAYOUT_GAS_LIMIT`. -/
  gasLimit : Nat
  /-- The chain id fetched at startup. -/
  chainId : Nat
  /-- Outcome of `w3.eth.send_raw_transaction`: the hex transaction hash
  (as later rendered by `w3.to_hex`), or the exception it raises. -/
  broadcastResult : Except PyExc String
  /-- Outcome of `w3.eth.wait_for_transaction_receipt`: the receipt status
  field, or the exception (e.g. timeout) it raises. -/
  receiptResult : Except PyExc Nat
  /-- The uuid drawn at `request_id = str(uuid.uuid4())`. -/
  freshRequestId : String
  /-- The generated default builder id `user-<hex>`. -/
  freshBuilderId : String
  /-- The uuid drawn by the legacy-envelope default for the response id. -/
  freshUuid : String

/-- Python truthiness test `not x` for an optional string argument:
true when the key is absent or the value is the empty string. -/
def pyFalsyStrOpt : Option String → Bool
  | none => true
  | some s => s = ""

/-- Python truthiness test `if x:` for an optional integer:
true only when the value is present and nonzero. -/
def pyTruthyInt : Option Int → Bool
  | none => false
  | some n => n != 0

/-- The JSON payload `verify_wallet` POSTs to the verification authority. -/
structure VerifyPayload where
  wallet_address : String
  github_username : String
  requester_id : String
  channel : String
deriving DecidableEq, Repr

/-- `verify_wallet(payload)`: one POST to the verification endpoint.  The
environment fixes its outcome; the payload itself is recorded in the caller
trace. -/
def verify_wallet (env : Env) (_payload : VerifyPayload) : Except PyExc Verification :=
  env.verifyResult

/-- `record_payout(github_user_id)`: best-effort POST to the record-payout
endpoint; `raise_for_status` turns an HTTP failure into an exception. -/
def record_payout (env : Env) (_github_user_id : Int) : Except PyExc Unit :=
  if env.recordPayoutOk then .ok () else .error (.httpError "record-payout call failed")

/-- The transaction dict assembled in `_send_tbnb`.  The first field is the
dict key `to` (a Lean keyword, hence the longer name here). -/
structure ChainTransaction where
  toAddress : String
  value : Int
  nonce : Nat
  gas : Nat
  gasPrice : Nat
  chainId : Nat
deriving DecidableEq, Repr

/-- Which chain-side effects a `_send_tbnb` call performed: whether the nonce
and gas price were read, which transaction (if any) was assembled and signed,
and whether `send_raw_transaction` was reached. -/
structure SendTrace where
  nonceRead : Bool
  tx : Option ChainTransaction
  broadcastCalled : Bool
deriving DecidableEq, Repr

/-- The trace of a `_send_tbnb` call that failed before touching the chain. -/
def SendTrace.empty : SendTrace := ⟨false, none, false⟩

/-- `_send_tbnb(wallet_address, amount)` (the source name begins with an
underscore): checksum the address, convert the amount, read nonce and gas
price, assemble and sign the transaction, broadcast, wait for the receipt,
and fail with RuntimeError when the receipt status is not 1.  The checksum
outcome and the chain answers come from the environment. -/
def send_tbnb (env : Env) (_wallet_address : String) : Except PyExc String × SendTrace :=
  if ¬ env.validAddress then
    (.error (.valueError env.checksumErrMsg), SendTrace.empty)
  else if env.valueWei ≤ 0 then
    (.error (.valueError "DEFAULT_PAYOUT_AMOUNT must be positive."), SendTrace.empty)
  else
    let tx : ChainTransaction :=
      ⟨env.checksumAddress, env.valueWei, env.nonce, env.gasLimit, env.gasPrice, env.chainId⟩
    match env.broadcastResult with
    | .error e => (.error e, ⟨true, some tx, true⟩)
    | .ok tx_hash =>
      match env.receiptResult with
      | .error e => (.error e, ⟨true, some tx, true⟩)
      | .ok status =>
        if status ≠ 1 then
          (.error (.runtimeError "On-chain transfer failed."), ⟨true, some tx, true⟩)
        else
          (.ok tx_hash, ⟨true, some tx, true⟩)

/-- `initiate_payout(wallet_address)`: runs `_send_tbnb` on a worker thread
with the configured amount; functionally the identity wrapper. -/
def initiate_payout (env : Env) (wallet_address : String) : Except PyExc String × SendTrace :=
  send_tbnb env wallet_address

/-- The `arguments` dict of a tool call, restricted to the keys the server
reads.  `none` models an absent key. -/
structure Arguments where
  builder_id : Option String
  wallet_address : Option String
  github_username : Option String
  channel : Option String
deriving DecidableEq, Repr

/-- The empty arguments dict, the default for a missing `arguments` key. -/
def Arguments.empty : Arguments := ⟨none, none, none, none⟩

/-- The success dict `process_tbnb_request` returns. -/
structure Success where
  request_id : String
  status : String
  message : String
  tx_hash : String
  verification : Verification
deriving DecidableEq, Repr

/-- Trace of one `process_tbnb_request` call: the payload POSTed to the
verification authority (if that call was made), whether a request id was
minted, the chain-side trace, the `github_user_id` passed to `record_payout`
(if that call was made), and whether a record-payout failure was caught and
discarded. -/
structure ProcTrace where
  verifyCalled : Option VerifyPayload
  requestIdMinted : Bool
  send : SendTrace
  recordPayoutAttempted : Option Int
  recordFailureSwallowed : Bool
deriving DecidableEq, Repr

/-- The trace of a request rejected before any outbound call. -/
def ProcTrace.empty : ProcTrace := ⟨none, false, SendTrace.empty, none, false⟩

/-- `process_tbnb_request(arguments)`: defaulting and presence checks, the
verification call, the denial check, request-id minting, the payout, the
guarded best-effort `record_payout`, and the blanket re-wrap of any payout
exception into `RuntimeError("Payout failed: ...")`. -/
def process_tbnb_request (env : Env) (args : Arguments) :
    Except PyExc Success × ProcTrace :=
  let builder_id := args.builder_id.getD env.freshBuilderId
  let channel := args.channel.getD "web"
  if pyFalsyStrOpt args.wallet_address || pyFalsyStrOpt args.github_username then
    (.error (.valueError "wallet_address and github_username are required"), ProcTrace.empty)
  else
    let wallet_address := args.wallet_address.getD ""
    let github_username := args.github_username.getD ""
    let payload : VerifyPayload := ⟨wallet_address, github_username, builder_id, channel⟩
    match verify_wallet env payload with
    | .error e =>
      (.error e, { ProcTrace.empty with verifyCalled := some payload })
    | .ok verification =>
      if ¬ verification.verified then
        (.error (.valueError ("Verification failed: " ++
            verification.reason.getD "Unknown verification failure")),
         { ProcTrace.empty with verifyCalled := some payload })
      else
        match initiate_payout env wallet_address with
        | (.error e, st) =>
          (.error (.runtimeError ("Payout failed: " ++ e.str)),
           ⟨some payload, true, st, none, false⟩)
        | (.ok tx_hash, st) =>
          let gid := verification.github_user_id
          let attempted := pyTruthyInt gid
          let swallowed := attempted &&
            (match record_payout env (gid.getD 0) with
             | .ok _ => false
             | .error _ => true)
          (.ok ⟨env.freshRequestId, "approved",
                "Disbursement submitted to BSC testnet", tx_hash, verification⟩,
           ⟨some payload, true, st, if attempted then gid else none, swallowed⟩)

/-- A JSON-RPC request or response identifier (string or integer; the absent
or null identifier is modelled as `none` at the use sites). -/
inductive RpcId where
  | str (s : String)
  | num (n : Int)
deriving DecidableEq, Repr

/-- The payload of a tool-call response, as the gateway builds it:
a protocol-successful result whose content is the serialized success dict
(`isError: false`), a protocol-successful result whose content is the
serialized error dict (`isError: true`), or a JSON-RPC error object. -/
inductive CallResult where
  | success (s : Success)
  | businessError (msg : String)
  | protoError (code : Int) (message : String) (data : String)
deriving DecidableEq, Repr

/-- The JSONResponse the tool-call endpoint returns: the HTTP status code
(always 200 in this endpoint), the JSON-RPC id field (`none` renders as
null), and the payload. -/
structure MCPResponse where
  status_code : Nat
  id : Option RpcId
  body : CallResult
deriving DecidableEq, Repr

/-- The `# Execute tool` block of `mcp_call_tool`: the truthiness check on the
tool name, dispatch on `issue_tbnb`, and the three exception handlers that
classify the outcome of `process_tbnb_request` (ValueError as a business
error inside a protocol-successful result, anything else as JSON-RPC server
error -32000). -/
def executeTool (env : Env) (request_id : Option RpcId) (tool_name : Option String)
    (arguments : Arguments) : MCPResponse × ProcTrace :=
  if pyFalsyStrOpt tool_name then
    (⟨200, request_id, .protoError (-32602) "Invalid params" "Missing tool name"⟩,
     ProcTrace.empty)
  else if tool_name = some "issue_tbnb" then
    match process_tbnb_request env arguments with
    | (.ok result, tr) => (⟨200, request_id, .success result⟩, tr)
    | (.error (.valueError msg), tr) => (⟨200, request_id, .businessError msg⟩, tr)
    | (.error e, tr) => (⟨200, request_id, .protoError (-32000) "Server error" e.str⟩, tr)
  else
    (⟨200, request_id,
      .protoError (-32601) "Method not found" ("Unknown tool: " ++ tool_name.getD "")⟩,
     ProcTrace.empty)

/-- The `params` dict of a JSON-RPC tool call, restricted to the keys read. -/
structure RpcParams where
  name : Option String
  arguments : Option Arguments
deriving DecidableEq, Repr

/-- A successfully parsed JSON body, restricted to the keys the two endpoints
read.  `method = none` models a body on which `JSONRPCRequest(**body)` raises
(the required `method` field is missing), which sends `mcp_call_tool` to its
legacy fallback and `mcp_list_tools` to its plain listing. -/
structure Body where
  jsonrpc : Option String
  id : Option RpcId
  method : Option String
  params : Option RpcParams
  name : Option String
  arguments : Option Arguments
deriving DecidableEq, Repr

/-- An inbound HTTP body: either `await request.json()` raises (the body is
not JSON), or it yields a parsed body. -/
inductive Inbound where
  | unparseable (msg : String)
  | parsed (b : Body)
deriving DecidableEq, Repr

/-- `mcp_call_tool(request)`: the outer parse-error handler, the JSON-RPC
envelope with its method and params checks, the legacy direct-call fallback
taken when the envelope does not validate, and the dispatch to the tool
execution block. -/
def mcp_call_tool (env : Env) (inbound : Inbound) : MCPResponse × ProcTrace :=
  match inbound with
  | .unparseable msg =>
    (⟨200, none, .protoError (-32700) "Parse error" msg⟩, ProcTrace.empty)
  | .parsed body =>
    match body.method with
    | some m =>
      if m ≠ "tools/call" then
        (⟨200, body.id, .protoError (-32601) "Method not found" ("Unknown method: " ++ m)⟩,
         ProcTrace.empty)
      else
        match body.params with
        | none =>
          (⟨200, body.id, .protoError (-32602) "Invalid params" "Missing params"⟩,
           ProcTrace.empty)
        | some p => executeTool env body.id p.name (p.arguments.getD Arguments.empty)
    | none =>
      executeTool env (some (body.id.getD (.str env.freshUuid)))
        body.name (body.arguments.getD Arguments.empty)

/-- One property of the published tool input schema. -/
structure ToolProperty where
  name : String
  type : String
  description : String
  enum : Option (List String)
  default : Option String
deriving DecidableEq, Repr

/-- The `inputSchema` value of a published tool. -/
structure InputSchema where
  type : String
  properties : List ToolProperty
  required : List String
deriving DecidableEq, Repr

/-- An entry of the MCP tool listing. -/
structure MCPTool where
  name : String
  description : String
  inputSchema : InputSchema
deriving DecidableEq, Repr

/-- The channel property of the `issue_tbnb` schema, advertising an enum the
server never checks. -/
def channelProperty : ToolProperty :=
  ⟨"channel",
   "string",
   "Support channel where request originated. Options: discord, telegram, web. Defaults to web.",
   some ["discord", "telegram", "web"],
   some "web"⟩

/-- `get_available_tools()`: the static tool listing (descriptions shortened,
schema structure kept). -/
def get_available_tools : List MCPTool :=
  [⟨"issue_tbnb",
    "Request tBNB payout for a verified GitHub user.",
    ⟨"object",
     [⟨"github_username", "string",
       "GitHub username for verification.", none, none⟩,
      ⟨"wallet_address", "string",
       "BSC wallet address to receive tBNB.", none, none⟩,
      ⟨"builder_id", "string",
       "Optional builder identifier. Defaults to auto-generated ID.", none, none⟩,
      channelProperty],
     ["github_username", "wallet_address"]⟩⟩]

/-- The JSONResponse the tools-list endpoint returns: a JSON-RPC result, a
JSON-RPC error, or — when the body fails to parse as a JSON-RPC request —
the plain tool listing for simple HTTP clients. -/
inductive ListToolsResponse where
  | rpcResult (id : Option RpcId) (tools : List MCPTool)
  | rpcError (id : Option RpcId) (code : Int) (message : String) (data : String)
  | plainTools (tools : List MCPTool)
deriving DecidableEq, Repr

/-- `mcp_list_tools(request)`: returns the JSON-RPC result for
`tools/list`, a method-not-found error for other methods, and falls back to
the plain listing when the body is not JSON or `JSONRPCRequest(**body)`
raises. -/
def mcp_list_tools (inbound : Inbound) : ListToolsResponse :=
  match inbound with
  | .unparseable _ => .plainTools get_available_tools
  | .parsed body =>
    match body.method with
    | none => .plainTools get_available_tools
    | some m =>
      if m ≠ "tools/list" then
        .rpcError body.id (-32601) "Method not found" ("Unknown method: " ++ m)
      else
        .rpcResult body.id get_available_tools

/-! ## Helper lemmas -/

/-- A payout call only returns a hash when the address was valid, the amount
positive, the broadcast returned that hash, and the receipt poll returned
status 1. -/
theorem send_tbnb_ok_iff (env : Env) (w tx_hash : String)
    (h : (send_tbnb env w).1 = .ok tx_hash) :
    env.validAddress = true ∧ 0 < env.valueWei ∧
      env.broadcastResult = .ok tx_hash ∧ env.receiptResult = .ok 1 := by
  by_cases hv : env.validAddress = true
  · by_cases hw : env.valueWei ≤ 0
    · simp [send_tbnb, hv, hw] at h
    · rcases hb : env.broadcastResult with e | th
      · simp [send_tbnb, hv, hw, hb] at h
      · rcases hr : env.receiptResult with e2 | st
        · simp [send_tbnb, hv, hw, hb, hr] at h
        · by_cases hs : st = 1
          · subst hs
            simp [send_tbnb, hv, hw, hb, hr] at h
            subst h
            exact ⟨hv, by omega, rfl, rfl⟩
          · simp [send_tbnb, hv, hw, hb, hr, hs] at h
  · simp [send_tbnb, hv] at h

/-- The orchestrator only returns the success dict when the payout call
returned its hash with a success receipt. -/
theorem process_ok_receipt (env : Env) (args : Arguments) (s : Success)
    (h : (process_tbnb_request env args).1 = .ok s) :
    env.broadcastResult = .ok s.tx_hash ∧ env.receiptResult = .ok 1 := by
  by_cases hmiss : (pyFalsyStrOpt args.wallet_address || pyFalsyStrOpt args.github_username) = true
  · simp [process_tbnb_request, hmiss] at h
  · rcases hv : env.verifyResult with e | verification
    · simp [process_tbnb_request, verify_wallet, hmiss, hv] at h
    · by_cases hver : verification.verified = true
      · rcases hp : send_tbnb env (args.wallet_address.getD "") with ⟨res, st⟩
        rcases res with e | tx_hash
        · simp [process_tbnb_request, verify_wallet, initiate_payout, hmiss, hv, hver, hp] at h
        · have hsend := send_tbnb_ok_iff env (args.wallet_address.getD "") tx_hash (by rw [hp])
          simp [process_tbnb_request, verify_wallet, initiate_payout, hmiss, hv, hver, hp] at h
          rw [← h]
          exact ⟨hsend.2.2.1, hsend.2.2.2⟩
      · simp [process_tbnb_request, verify_wallet, hmiss, hv, hver] at h

/-- The tool-execution block reports a success payload only when the
orchestrator returned that payload. -/
theorem executeTool_success (env : Env) (rid : Option RpcId) (tn : Option String)
    (args : Arguments) (s : Success)
    (h : (executeTool env rid tn args).1.body = .success s) :
    (process_tbnb_request env args).1 = .ok s := by
  have hft : pyFalsyStrOpt (some "issue_tbnb") = false := by decide
  by_cases hf : pyFalsyStrOpt tn = true
  · simp [executeTool, hf] at h
  · by_cases ht : tn = some "issue_tbnb"
    · rcases hp : process_tbnb_request env args with ⟨res, tr⟩
      rcases res with e | r
      · rcases e with m | m | m <;> simp [executeTool, hft, ht, hp] at h
      · simp [executeTool, hft, ht, hp] at h
        simp [hp, h]
    · simp [executeTool, hf, ht] at h

/-- The tool-call endpoint reports a success payload only when the
orchestrator produced it, hence only with a success receipt. -/
theorem mcp_call_tool_success_receipt (env : Env) (inb : Inbound) (s : Success)
    (h : (mcp_call_tool env inb).1.body = .success s) :
    env.receiptResult = .ok 1 := by
  rcases inb with msg | body
  · simp [mcp_call_tool] at h
  · rcases hm : body.method with _ | m
    · have h2 : (executeTool env (some (body.id.getD (.str env.freshUuid)))
          body.name (body.arguments.getD Arguments.empty)).1.body = .success s := by
        simpa [mcp_call_tool, hm] using h
      exact (process_ok_receipt _ _ _ (executeTool_success _ _ _ _ _ h2)).2
    · by_cases hmm : m = "tools/call"
      · rcases hp : body.params with _ | p
        · simp [mcp_call_tool, hm, hmm, hp] at h
        · have h2 : (executeTool env body.id p.name
              (p.arguments.getD Arguments.empty)).1.body = .success s := by
            simpa [mcp_call_tool, hm, hmm, hp] using h
          exact (process_ok_receipt _ _ _ (executeTool_success _ _ _ _ _ h2)).2
      · simp [mcp_call_tool, hm, hmm] at h

/-- When both required arguments pass the truthiness check, the orchestrator
always POSTs the verification payload built from the arguments, whatever the
outside world then answers. -/
theorem process_verifyCalled (env : Env) (args : Arguments)
    (hmiss : (pyFalsyStrOpt args.wallet_address || pyFalsyStrOpt args.github_username) = false) :
    (process_tbnb_request env args).2.verifyCalled
      = some ⟨args.wallet_address.getD "", args.github_username.getD "",
          args.builder_id.getD env.freshBuilderId, args.channel.getD "web"⟩ := by
  rcases hv : env.verifyResult with e | v
  · simp [process_tbnb_request, verify_wallet, hmiss, hv]
  · by_cases hver : v.verified = true
    · rcases hp : send_tbnb env (args.wallet_address.getD "") with ⟨res, st⟩
      rcases res with e | th <;>
        simp [process_tbnb_request, verify_wallet, initiate_payout, hmiss, hv, hver, hp]
    · simp [process_tbnb_request, verify_wallet, hmiss, hv, hver]

/-- The tool-execution block passes the orchestrator trace through unchanged
when the tool is `issue_tbnb`. -/
theorem executeTool_trace (env : Env) (rid : Option RpcId) (args : Arguments) :
    (executeTool env rid (some "issue_tbnb") args).2 = (process_tbnb_request env args).2 := by
  have hft : pyFalsyStrOpt (some "issue_tbnb") = false := by decide
  rcases hp : process_tbnb_request env args with ⟨res, tr⟩
  rcases res with e | r
  · rcases e with m | m | m <;> simp [executeTool, hft, hp]
  · simp [executeTool, hft, hp]

/-! ## Claims -/

/-- C1: An Approved outcome (a protocol result carrying the success dict with
its tx_hash) is produced only when the environment returned an on-chain
receipt with success status; when the receipt status is not success the
response is never the success dict, and the payout call itself raises the
RuntimeError instead of returning the hash obtained at broadcast time. -/
theorem C1_approved_requires_success_receipt (env : Env) (inb : Inbound) :
    (∀ s, (mcp_call_tool env inb).1.body = .success s → env.receiptResult = .ok 1)
    ∧ (∀ st, env.receiptResult = .ok st → st ≠ 1 →
        ∀ s, (mcp_call_tool env inb).1.body ≠ .success s)
    ∧ (∀ w th st, env.validAddress = true → 0 < env.valueWei →
        env.broadcastResult = .ok th → env.receiptResult = .ok st → st ≠ 1 →
        (send_tbnb env w).1 = .error (.runtimeError "On-chain transfer failed.")) := by
  refine ⟨fun s h => mcp_call_tool_success_receipt env inb s h, ?_, ?_⟩
  · intro st hst hne s h
    apply hne
    have hr := mcp_call_tool_success_receipt env inb s h
    rw [hst] at hr
    exact Except.ok.inj hr
  · intro w th st hv hw hb hr hne
    have hw2 : ¬ env.valueWei ≤ 0 := by omega
    simp [send_tbnb, hv, hw2, hb, hr, hne]

/-- Environment for the C1 witness: verification approves, broadcast returns
a hash, the receipt has success status. -/
def envC1 : Env :=
  { verifyResult := .ok ⟨true, none, some 42⟩
    recordPayoutOk := true
    validAddress := true
    checksumAddress := "0xAbC"
    checksumErrMsg := "invalid address"
    valueWei := 300000000000000000
    nonce := 7
    gasPrice := 5
    gasLimit := 21000
    chainId := 97
    broadcastResult := .ok "0xdeadbeef"
    receiptResult := .ok 1
    freshRequestId := "req-0001"
    freshBuilderId := "user-abcd1234"
    freshUuid := "uuid-0001" }

/-- A well-formed JSON-RPC tool call for the C1 witness. -/
def inbC1 : Inbound :=
  .parsed ⟨some "2.0", some (.num 1), some "tools/call",
    some ⟨some "issue_tbnb", some ⟨some "disc-1", some "0xabc", some "alice", some "discord"⟩⟩,
    none, none⟩

theorem C1_approved_requires_success_receipt_witness :
    (mcp_call_tool envC1 inbC1).1.body
      = .success ⟨"req-0001", "approved", "Disbursement submitted to BSC testnet",
          "0xdeadbeef", ⟨true, none, some 42⟩⟩
    ∧ envC1.receiptResult = .ok 1 :=
  ⟨rfl, (C1_approved_requires_success_receipt envC1 inbC1).1 _ rfl⟩

/-- C2: When the verification verdict has verified false, the tool-call
response is a protocol-successful (HTTP 200) result whose payload is the
application-level error carrying the authority-supplied reason; the chain is
never touched (no transaction assembled, nothing broadcast) and no request id
is minted. -/
theorem C2_denied_is_business_rejection
    (env : Env) (rid : Option RpcId) (args : Arguments) (v : Verification)
    (hv : env.verifyResult = .ok v) (hver : v.verified = false)
    (hw : pyFalsyStrOpt args.wallet_address = false)
    (hg : pyFalsyStrOpt args.github_username = false) :
    (executeTool env rid (some "issue_tbnb") args).1
      = ⟨200, rid, .businessError ("Verification failed: " ++
          v.reason.getD "Unknown verification failure")⟩
    ∧ (executeTool env rid (some "issue_tbnb") args).2.send = SendTrace.empty
    ∧ (executeTool env rid (some "issue_tbnb") args).2.requestIdMinted = false := by
  have hft : pyFalsyStrOpt (some "issue_tbnb") = false := by decide
  have hmiss : (pyFalsyStrOpt args.wallet_address || pyFalsyStrOpt args.github_username) = false := by
    simp [hw, hg]
  refine ⟨?_, ?_, ?_⟩ <;>
    simp [executeTool, process_tbnb_request, verify_wallet, ProcTrace.empty, hft, hmiss, hv, hver]

/-- Environment for the C2 witness: the authority denies with a reason. -/
def envC2 : Env :=
  { verifyResult := .ok ⟨false, some "account too new", none⟩
    recordPayoutOk := true
    validAddress := true
    checksumAddress := "0xAbC"
    checksumErrMsg := "invalid address"
    valueWei := 300000000000000000
    nonce := 7
    gasPrice := 5
    gasLimit := 21000
    chainId := 97
    broadcastResult := .ok "0xdeadbeef"
    receiptResult := .ok 1
    freshRequestId := "req-0002"
    freshBuilderId := "user-bbbb2222"
    freshUuid := "uuid-0002" }

/-- Arguments for the C2 witness. -/
def argsC2 : Arguments := ⟨none, some "0xabc", some "alice", none⟩

theorem C2_denied_is_business_rejection_witness :
    (executeTool envC2 none (some "issue_tbnb") argsC2).1
      = ⟨200, none, .businessError "Verification failed: account too new"⟩
    ∧ (executeTool envC2 none (some "issue_tbnb") argsC2).2.send = SendTrace.empty :=
  ⟨(C2_denied_is_business_rejection envC2 none argsC2 _ rfl rfl rfl rfl).1,
   (C2_denied_is_business_rejection envC2 none argsC2 _ rfl rfl rfl rfl).2.1⟩

/-- C3: A tool call whose arguments lack wallet_address or github_username is
rejected as a business error, and the trace is empty: the verification
authority is never contacted and the chain is never touched. -/
theorem C3_missing_fields_rejected_without_calls
    (env : Env) (rid : Option RpcId) (args : Arguments)
    (h : args.wallet_address = none ∨ args.github_username = none) :
    (executeTool env rid (some "issue_tbnb") args).1
      = ⟨200, rid, .businessError "wallet_address and github_username are required"⟩
    ∧ (executeTool env rid (some "issue_tbnb") args).2 = ProcTrace.empty := by
  have hft : pyFalsyStrOpt (some "issue_tbnb") = false := by decide
  have hmiss : (pyFalsyStrOpt args.wallet_address || pyFalsyStrOpt args.github_username) = true := by
    rcases h with h | h <;> simp [h, pyFalsyStrOpt]
  constructor <;> simp [executeTool, process_tbnb_request, hft, hmiss]

/-- Arguments for the C3 witness: github_username is absent. -/
def argsC3 : Arguments := ⟨some "disc-3", some "0xabc", none, some "discord"⟩

theorem C3_missing_fields_rejected_without_calls_witness :
    (executeTool envC2 (some (.num 3)) (some "issue_tbnb") argsC3).1
      = ⟨200, some (.num 3), .businessError "wallet_address and github_username are required"⟩
    ∧ (executeTool envC2 (some (.num 3)) (some "issue_tbnb") argsC3).2 = ProcTrace.empty :=
  C3_missing_fields_rejected_without_calls envC2 (some (.num 3)) argsC3 (Or.inr rfl)

/-- C4: When the on-chain transfer already succeeded, a failing record_payout
call is caught and discarded: the returned value is identical to the one
returned when bookkeeping succeeds, namely the approved success dict with the
transaction hash. -/
theorem C4_bookkeeping_failure_swallowed
    (env : Env) (args : Arguments) (v : Verification) (th : String)
    (hv : env.verifyResult = .ok v) (hver : v.verified = true)
    (hw : pyFalsyStrOpt args.wallet_address = false)
    (hg : pyFalsyStrOpt args.github_username = false)
    (hva : env.validAddress = true) (hwei : 0 < env.valueWei)
    (hb : env.broadcastResult = .ok th) (hr : env.receiptResult = .ok 1) :
    (process_tbnb_request { env with recordPayoutOk := false } args).1
      = (process_tbnb_request { env with recordPayoutOk := true } args).1
    ∧ (process_tbnb_request { env with recordPayoutOk := false } args).1
      = .ok ⟨env.freshRequestId, "approved", "Disbursement submitted to BSC testnet", th, v⟩ := by
  have hw2 : ¬ env.valueWei ≤ 0 := by omega
  have hmiss : (pyFalsyStrOpt args.wallet_address || pyFalsyStrOpt args.github_username) = false := by
    simp [hw, hg]
  constructor <;>
    simp [process_tbnb_request, verify_wallet, initiate_payout, send_tbnb,
      hmiss, hv, hver, hva, hw2, hb, hr]

/-- Environment for the C4 witness: approval, successful transfer, and a
record-payout endpoint that fails. -/
def envC4 : Env :=
  { verifyResult := .ok ⟨true, none, some 42⟩
    recordPayoutOk := true
    validAddress := true
    checksumAddress := "0xAbC"
    checksumErrMsg := "invalid address"
    valueWei := 300000000000000000
    nonce := 7
    gasPrice := 5
    gasLimit := 21000
    chainId := 97
    broadcastResult := .ok "0xfeed04"
    receiptResult := .ok 1
    freshRequestId := "req-0004"
    freshBuilderId := "user-dddd4444"
    freshUuid := "uuid-0004" }

/-- Arguments for the C4 witness. -/
def argsC4 : Arguments := ⟨none, some "0xabc", some "alice", none⟩

theorem C4_bookkeeping_failure_swallowed_witness :
    (process_tbnb_request { envC4 with recordPayoutOk := false } argsC4).1
      = .ok ⟨"req-0004", "approved", "Disbursement submitted to BSC testnet",
          "0xfeed04", ⟨true, none, some 42⟩⟩ :=
  (C4_bookkeeping_failure_swallowed envC4 argsC4 _ _ rfl rfl rfl rfl rfl (by decide) rfl rfl).2

/-- Environment for the C5 counterexample: the authority approves but the
wallet fails the checksum validation inside the transaction engine. -/
def envC5 : Env :=
  { verifyResult := .ok ⟨true, none, none⟩
    recordPayoutOk := true
    validAddress := false
    checksumAddress := ""
    checksumErrMsg := "invalid address"
    valueWei := 300000000000000000
    nonce := 7
    gasPrice := 5
    gasLimit := 21000
    chainId := 97
    broadcastResult := .ok "0xfeed05"
    receiptResult := .ok 1
    freshRequestId := "req-0005"
    freshBuilderId := "user-eeee5555"
    freshUuid := "uuid-0005" }

/-- Arguments for the C5 counterexample. -/
def argsC5 : Arguments := ⟨none, some "not-an-address", some "alice", none⟩

theorem C5_counterexample :
    (executeTool envC5 none (some "issue_tbnb") argsC5).1.body
      = .protoError (-32000) "Server error" "Payout failed: invalid address"
    ∧ (executeTool envC5 none (some "issue_tbnb") argsC5).2.verifyCalled
      = some ⟨"not-an-address", "alice", "user-eeee5555", "web"⟩ :=
  ⟨rfl, rfl⟩

/-- C5 (amended): A malformed wallet address or a non-positive configured
amount is detected inside the transaction engine, after the verification
call has already been made; the ValueError is re-wrapped as
RuntimeError("Payout failed: ...") and therefore reported as a protocol-level
server error (-32000), not as a business rejection.  No chain side effects
occur: the transaction is never assembled or broadcast. -/
theorem C5_validation_failures_become_server_errors
    (env : Env) (rid : Option RpcId) (args : Arguments) (v : Verification)
    (hv : env.verifyResult = .ok v) (hver : v.verified = true)
    (hw : pyFalsyStrOpt args.wallet_address = false)
    (hg : pyFalsyStrOpt args.github_username = false) :
    (env.validAddress = false →
      (executeTool env rid (some "issue_tbnb") args).1
        = ⟨200, rid, .protoError (-32000) "Server error"
            ("Payout failed: " ++ env.checksumErrMsg)⟩
      ∧ (executeTool env rid (some "issue_tbnb") args).2.send = SendTrace.empty)
    ∧ (env.validAddress = true → env.valueWei ≤ 0 →
      (executeTool env rid (some "issue_tbnb") args).1
        = ⟨200, rid, .protoError (-32000) "Server error"
            "Payout failed: DEFAULT_PAYOUT_AMOUNT must be positive."⟩
      ∧ (executeTool env rid (some "issue_tbnb") args).2.send = SendTrace.empty) := by
  have hft : pyFalsyStrOpt (some "issue_tbnb") = false := by decide
  have hmiss : (pyFalsyStrOpt args.wallet_address || pyFalsyStrOpt args.github_username) = false := by
    simp [hw, hg]
  constructor
  · intro hva
    constructor <;>
      simp [executeTool, process_tbnb_request, verify_wallet, initiate_payout, send_tbnb,
        PyExc.str, SendTrace.empty, hft, hmiss, hv, hver, hva]
  · intro hva hwei
    constructor <;>
      simp [executeTool, process_tbnb_request, verify_wallet, initiate_payout, send_tbnb,
        PyExc.str, SendTrace.empty, hft, hmiss, hv, hver, hva, hwei]

theorem C5_validation_failures_become_server_errors_witness :
    (executeTool envC5 none (some "issue_tbnb") argsC5).1
      = ⟨200, none, .protoError (-32000) "Server error" "Payout failed: invalid address"⟩ :=
  ((C5_validation_failures_become_server_errors envC5 none argsC5 _ rfl rfl rfl rfl).1 rfl).1

/-- C6: When the verify call itself fails at the transport or HTTP-status
level — the httpx client raises instead of returning a verdict — the raw
exception escapes the ValueError handler and the response is the
protocol-level server error (-32000): never a business rejection and never an
approval. -/
theorem C6_verification_unreachable_is_server_error
    (env : Env) (rid : Option RpcId) (args : Arguments) (msg : String)
    (hv : env.verifyResult = .error (.httpError msg))
    (hw : pyFalsyStrOpt args.wallet_address = false)
    (hg : pyFalsyStrOpt args.github_username = false) :
    (executeTool env rid (some "issue_tbnb") args).1
      = ⟨200, rid, .protoError (-32000) "Server error" msg⟩ := by
  have hft : pyFalsyStrOpt (some "issue_tbnb") = false := by decide
  have hmiss : (pyFalsyStrOpt args.wallet_address || pyFalsyStrOpt args.github_username) = false := by
    simp [hw, hg]
  simp [executeTool, process_tbnb_request, verify_wallet, PyExc.str, hft, hmiss, hv]

/-- Environment for the C6 witness: the verification endpoint is unreachable. -/
def envC6 : Env :=
  { envC2 with verifyResult := .error (.httpError "connection refused") }

theorem C6_verification_unreachable_is_server_error_witness :
    (executeTool envC6 none (some "issue_tbnb") argsC2).1
      = ⟨200, none, .protoError (-32000) "Server error" "connection refused"⟩ :=
  C6_verification_unreachable_is_server_error envC6 none argsC2 _ rfl rfl rfl

/-- Environment for the C7 counterexample: full approval path. -/
def envC7 : Env :=
  { verifyResult := .ok ⟨true, none, none⟩
    recordPayoutOk := true
    validAddress := true
    checksumAddress := "0xAbC"
    checksumErrMsg := "invalid address"
    valueWei := 300000000000000000
    nonce := 7
    gasPrice := 5
    gasLimit := 21000
    chainId := 97
    broadcastResult := .ok "0xfeed07"
    receiptResult := .ok 1
    freshRequestId := "req-0007"
    freshBuilderId := "user-gggg7777"
    freshUuid := "uuid-0007" }

/-- A valid-JSON body that lacks `method` but names a tool, as the legacy
direct-call form does. -/
def bodyC7 : Body :=
  ⟨none, none, none, none, some "issue_tbnb", some ⟨none, some "0xabc", some "alice", none⟩⟩

theorem C7_counterexample :
    bodyC7.method = none
    ∧ (mcp_call_tool envC7 (.parsed bodyC7)).1.body
      = .success ⟨"req-0007", "approved", "Disbursement submitted to BSC testnet",
          "0xfeed07", ⟨true, none, none⟩⟩
    ∧ (mcp_call_tool envC7 (.parsed bodyC7)).2.verifyCalled
      = some ⟨"0xabc", "alice", "user-gggg7777", "web"⟩ :=
  ⟨rfl, rfl, rfl⟩

/-- C7 (amended): A valid-JSON body lacking `method` is not answered with a
protocol error as such: it falls through to the legacy direct-call form.
Only when it also fails to supply a tool name does the endpoint answer with
the protocol-level invalid-params error (-32602), with no business outcome
and no outbound call. -/
theorem C7_missing_method_and_name_is_invalid_params
    (env : Env) (b : Body) (hm : b.method = none) (hn : b.name = none) :
    (mcp_call_tool env (.parsed b)).1.body
      = .protoError (-32602) "Invalid params" "Missing tool name"
    ∧ (mcp_call_tool env (.parsed b)).2 = ProcTrace.empty := by
  constructor <;> simp [mcp_call_tool, executeTool, hm, hn, pyFalsyStrOpt]

/-- A valid-JSON body with neither `method` nor `name`. -/
def bodyC7w : Body := ⟨some "2.0", some (.num 7), none, none, none, none⟩

theorem C7_missing_method_and_name_is_invalid_params_witness :
    (mcp_call_tool envC7 (.parsed bodyC7w)).1.body
      = .protoError (-32602) "Invalid params" "Missing tool name"
    ∧ (mcp_call_tool envC7 (.parsed bodyC7w)).2 = ProcTrace.empty :=
  C7_missing_method_and_name_is_invalid_params envC7 bodyC7w rfl rfl

theorem C8_counterexample :
    mcp_list_tools (.unparseable "this is not json") = .plainTools get_available_tools
    ∧ mcp_list_tools (.unparseable "this is not json")
      ≠ .rpcError none (-32700) "Parse error" "this is not json" := by
  exact ⟨rfl, by decide⟩

/-- C8 (amended): On the tool-call endpoint an unparseable body yields the
protocol-level parse error (-32700) with a null identifier and never a result
payload; the tools-list endpoint, however, swallows the parse failure and
answers with the plain tool listing for simple HTTP clients. -/
theorem C8_parse_error_only_on_call_endpoint (env : Env) (msg : String) :
    (mcp_call_tool env (.unparseable msg)).1
      = ⟨200, none, .protoError (-32700) "Parse error" msg⟩
    ∧ (mcp_call_tool env (.unparseable msg)).2 = ProcTrace.empty
    ∧ mcp_list_tools (.unparseable msg) = .plainTools get_available_tools :=
  ⟨rfl, rfl, rfl⟩

/-- Environment for the C9 counterexample: the authority supplies
github_user_id 0, which is present but falsy in Python. -/
def envC9 : Env :=
  { verifyResult := .ok ⟨true, none, some 0⟩
    recordPayoutOk := true
    validAddress := true
    checksumAddress := "0xAbC"
    checksumErrMsg := "invalid address"
    valueWei := 300000000000000000
    nonce := 7
    gasPrice := 5
    gasLimit := 21000
    chainId := 97
    broadcastResult := .ok "0xfeed09"
    receiptResult := .ok 1
    freshRequestId := "req-0009"
    freshBuilderId := "user-iiii9999"
    freshUuid := "uuid-0009" }

/-- Arguments for the C9 theorems. -/
def argsC9 : Arguments := ⟨none, some "0xabc", some "alice", none⟩

theorem C9_counterexample :
    envC9.verifyResult = .ok ⟨true, none, some 0⟩
    ∧ (process_tbnb_request envC9 argsC9).1
      = .ok ⟨"req-0009", "approved", "Disbursement submitted to BSC testnet",
          "0xfeed09", ⟨true, none, some 0⟩⟩
    ∧ (process_tbnb_request envC9 argsC9).2.recordPayoutAttempted = none :=
  ⟨rfl, rfl, rfl⟩

/-- C9 (amended): On transaction success, record_payout is attempted with the
authority-supplied github_user_id when that field is present and truthy
(nonzero); it is skipped when the field is absent and also when the value is
falsy, such as 0. -/
theorem C9_record_payout_follows_truthiness
    (env : Env) (args : Arguments) (v : Verification) (th : String)
    (hv : env.verifyResult = .ok v) (hver : v.verified = true)
    (hw : pyFalsyStrOpt args.wallet_address = false)
    (hg : pyFalsyStrOpt args.github_username = false)
    (hva : env.validAddress = true) (hwei : 0 < env.valueWei)
    (hb : env.broadcastResult = .ok th) (hr : env.receiptResult = .ok 1) :
    (∀ gid : Int, v.github_user_id = some gid → gid ≠ 0 →
      (process_tbnb_request env args).2.recordPayoutAttempted = some gid)
    ∧ (v.github_user_id = none →
      (process_tbnb_request env args).2.recordPayoutAttempted = none)
    ∧ (v.github_user_id = some 0 →
      (process_tbnb_request env args).2.recordPayoutAttempted = none) := by
  have hw2 : ¬ env.valueWei ≤ 0 := by omega
  have hmiss : (pyFalsyStrOpt args.wallet_address || pyFalsyStrOpt args.github_username) = false := by
    simp [hw, hg]
  refine ⟨fun gid hgid hne => ?_, fun hgid => ?_, fun hgid => ?_⟩ <;>
    simp [process_tbnb_request, verify_wallet, initiate_payout, send_tbnb, pyTruthyInt,
      hmiss, hv, hver, hva, hw2, hb, hr, hgid]
  simp [hne]

/-- Environment for the C9 witness: a truthy github_user_id. -/
def envC9w : Env := { envC9 with verifyResult := .ok ⟨true, none, some 42⟩ }

theorem C9_record_payout_follows_truthiness_witness :
    (process_tbnb_request envC9w argsC9).2.recordPayoutAttempted = some 42 :=
  (C9_record_payout_follows_truthiness envC9w argsC9 _ _ rfl rfl rfl rfl rfl
    (by decide) rfl rfl).1 42 rfl (by decide)

/-- C10: Any string supplied for channel — including values outside the enum
advertised by the published schema — is forwarded unchanged to the
verification authority, and only an absent channel defaults to web; the
schema for issue_tbnb nevertheless advertises the enum discord, telegram,
web. -/
theorem C10_channel_unvalidated_and_forwarded
    (env : Env) (rid : Option RpcId) (args : Arguments)
    (hw : pyFalsyStrOpt args.wallet_address = false)
    (hg : pyFalsyStrOpt args.github_username = false) :
    (∀ c : String, args.channel = some c →
      (executeTool env rid (some "issue_tbnb") args).2.verifyCalled
        = some ⟨args.wallet_address.getD "", args.github_username.getD "",
            args.builder_id.getD env.freshBuilderId, c⟩)
    ∧ (args.channel = none →
      (executeTool env rid (some "issue_tbnb") args).2.verifyCalled
        = some ⟨args.wallet_address.getD "", args.github_username.getD "",
            args.builder_id.getD env.freshBuilderId, "web"⟩)
    ∧ channelProperty ∈ (get_available_tools.headD ⟨"", "", ⟨"", [], []⟩⟩).inputSchema.properties
    ∧ channelProperty.enum = some ["discord", "telegram", "web"] := by
  have hmiss : (pyFalsyStrOpt args.wallet_address || pyFalsyStrOpt args.github_username) = false := by
    simp [hw, hg]
  refine ⟨fun c hc => ?_, fun hc => ?_, by decide, rfl⟩ <;>
    rw [executeTool_trace, process_verifyCalled env args hmiss, hc] <;> rfl

/-- Arguments for the C10 witness: a channel value outside the advertised
enum. -/
def argsC10 : Arguments := ⟨none, some "0xabc", some "alice", some "carrier-pigeon"⟩

theorem C10_channel_unvalidated_and_forwarded_witness :
    (executeTool envC7 none (some "issue_tbnb") argsC10).2.verifyCalled
      = some ⟨"0xabc", "alice", "user-gggg7777", "carrier-pigeon"⟩ :=
  (C10_channel_unvalidated_and_forwarded envC7 none argsC10 rfl rfl).1
    "carrier-pigeon" rfl

end FaucetMcp
